import Mathlib

/-!
Shallow embedding of `src/data/processing/h5_to_pdb.py` (MISATO dataset
h5-to-PDB converter) and proofs about its core conversion pipeline.

Modelling choices:
* Python dictionaries that may miss a key (the element table
  `atomic_numbers_Map`, the name table `nameMap`) are functions into `Option`;
  a `KeyError` that propagates is `none` threaded through the scan, so the
  per-frame conversions return `Option (List String)`.
* The type and residue tables are total functions `Nat → String`: the claims
  never exercise a miss in those tables.
* Coordinates are exact multiples of 0.001 Å, carried as `Int` thousandths;
  Python's `{:8.3f}` rendering on such values is mirrored by `fmtFixed3`
  padded to minimum width 8.
* Python `'{:<w}'` / `'{:>w}'` format specs pad to a MINIMUM width and never
  truncate; `padR` / `padL` mirror that exactly.
-/

namespace H5ToPdb

/-- The fixed element table `atomic_numbers_Map` of the source, as a partial
map: atomic number to element symbol, `none` when the key is absent
(a Python `KeyError`). -/
def atomic_numbers_Map (n : Nat) : Option String :=
  match n with
  | 1 => some "H"
  | 5 => some "B"
  | 6 => some "C"
  | 7 => some "N"
  | 8 => some "O"
  | 9 => some "F"
  | 11 => some "Na"
  | 12 => some "Mg"
  | 13 => some "Al"
  | 14 => some "Si"
  | 15 => some "P"
  | 16 => some "S"
  | 17 => some "Cl"
  | 19 => some "K"
  | 20 => some "Ca"
  | 34 => some "Se"
  | 35 => some "Br"
  | 53 => some "I"
  | _ => none

/-- A run of `n` space characters. -/
def spaces (n : Nat) : String :=
  String.mk (List.replicate n ' ')

/-- Python `'{:>w}'`: right-justify to minimum width `w` (no truncation). -/
def padL (s : String) (w : Nat) : String :=
  spaces (w - s.length) ++ s

/-- Python `'{:<w}'`: left-justify to minimum width `w` (no truncation). -/
def padR (s : String) (w : Nat) : String :=
  s ++ spaces (w - s.length)

/-- Zero-pad a digit string on the left to width 3 (for the fractional part
of a `%.3f` rendering). -/
def zpad3 (s : String) : String :=
  String.mk (List.replicate (3 - s.length) '0') ++ s

/-- Python `'{:.3f}'` on a coordinate given as `Int` thousandths: optional
sign, integer part, `'.'`, exactly three fraction digits. -/
def fmtFixed3 (m : Int) : String :=
  (if m < 0 then "-" else "") ++ toString (m.natAbs / 1000) ++ "." ++ zpad3 (toString (m.natAbs % 1000))

/-- The shared line formatter: the format string
`'ATOM{0:7d}  {1:<4}{2:<4}{3:>5}    {4:8.3f}{5:8.3f}{6:8.3f}  1.00  0.00           {7:<5}'`
of `create_pdb_lines_MD` / `create_pdb_lines_QM`. -/
def format_pdb_line (serial : Nat) (atom_name : String) (residue_name : String)
    (residue_number : Nat) (x y z : Int) (elem : String) : String :=
  "ATOM" ++ padL (toString serial) 7 ++ "  " ++ padR atom_name 4 ++ padR residue_name 4
    ++ padL (toString residue_number) 5 ++ "    "
    ++ padL (fmtFixed3 x) 8 ++ padL (fmtFixed3 y) 8 ++ padL (fmtFixed3 z) 8
    ++ "  1.00  0.00           " ++ padR elem 5

/-- `get_atom_name` of the source.  `atoms_number` is the atomic-number array,
`nameMap` the name table keyed by (residue name, in-residue index - 1, type
label).  In the `'MOL'` branch both the `try` and the `except` arm evaluate
the same element lookup, so a missing element propagates (`none`) there too;
in the other branch a name-table miss falls back to element + position, and
only a missing element propagates. -/
def get_atom_name (i : Nat) (atoms_number : Nat → Nat) (residue_atom_index : Nat)
    (residue_name : String) (type_string : String)
    (nameMap : String × Int × String → Option String) : Option String :=
  if residue_name = "MOL" then
    (atomic_numbers_Map (atoms_number i)).map (fun e => e ++ toString residue_atom_index)
  else
    match nameMap (residue_name, (residue_atom_index : Int) - 1, type_string) with
    | some n => some n
    | none => (atomic_numbers_Map (atoms_number i)).map (fun e => e ++ toString residue_atom_index)

/-- `update_residue_indices` of the source.  Python's `A and B or C` parses
as `(A and B) or C`.  `type_string[0]` is modelled by `String.front`
(type labels are nonempty in every use). -/
def update_residue_indices (residue_number : Nat) (i : Nat) (type_string : String)
    (atoms_type : List Nat) (atoms_residue : List Nat) (residue_name : String)
    (residue_atom_index : Nat) (residue_Map : Nat → String) (typeMap : Nat → String) :
    Nat × Nat :=
  if i < atoms_type.length - 1 then
    if (type_string.front = 'O' ∧ (typeMap (atoms_type.getD (i+1) 0)).front = 'N')
        ∨ residue_Map (atoms_residue.getD (i+1) 0) = "MOL" then
      if ¬ ((residue_name = "GLN" ∧ (residue_atom_index = 12 ∨ residue_atom_index = 14))
            ∨ (residue_name = "ASN" ∧ (residue_atom_index = 9 ∨ residue_atom_index = 11))) then
        (residue_number + 1, 0)
      else
        (residue_number, residue_atom_index)
    else
      (residue_number, residue_atom_index)
  else
    (residue_number, residue_atom_index)

/-- `insert_TERS` of the source: if the NEXT atom index starts a new molecule,
append a bare `TER` line, bump the residue number and reset the position
counter. -/
def insert_TERS (i : Nat) (molecules_begin_atom_index : List Nat)
    (residue_number : Nat) (residue_atom_index : Nat) (lines : List String) :
    Nat × Nat × List String :=
  if i + 1 ∈ molecules_begin_atom_index then
    (residue_number + 1, 0, lines ++ ["TER"])
  else
    (residue_number, residue_atom_index, lines)

/-- The inputs of `create_pdb_lines_MD`, bundled: the per-atom arrays, the
molecule-boundary list and the three lookup tables. -/
structure MDInput where
  trajectory_coordinates : Nat → Int × Int × Int
  atoms_type : List Nat
  atoms_number : Nat → Nat
  atoms_residue : List Nat
  molecules_begin_atom_index : List Nat
  typeMap : Nat → String
  residue_Map : Nat → String
  nameMap : String × Int × String → Option String

/-- One iteration of the `create_pdb_lines_MD` loop at atom `i` on state
(residue number, in-residue position counter, accumulated lines), in source
order: bump the position counter, resolve names, format the line (the element
lookup in the format call may fail), run the residue-index update, append the
line, then the TER insertion. -/
def mdStep (inp : MDInput) (i : Nat) (st : Nat × Nat × List String) :
    Option (Nat × Nat × List String) :=
  let residue_atom_index := st.2.1 + 1
  let type_string := inp.typeMap (inp.atoms_type.getD i 0)
  let residue_name := inp.residue_Map (inp.atoms_residue.getD i 0)
  match get_atom_name i inp.atoms_number residue_atom_index residue_name type_string inp.nameMap with
  | none => none
  | some atom_name =>
    match atomic_numbers_Map (inp.atoms_number i) with
    | none => none
    | some elem =>
      let c := inp.trajectory_coordinates i
      let line := format_pdb_line (i+1) atom_name residue_name st.1 c.1 c.2.1 c.2.2 elem
      let upd := update_residue_indices st.1 i type_string inp.atoms_type inp.atoms_residue
        residue_name residue_atom_index inp.residue_Map inp.typeMap
      some (insert_TERS i inp.molecules_begin_atom_index upd.1 upd.2 (st.2.2 ++ [line]))

/-- The `create_pdb_lines_MD` loop over a list of atom indices; a failing
step (Python `KeyError`) aborts the whole scan. -/
def mdRun (inp : MDInput) : List Nat → Nat × Nat × List String → Option (Nat × Nat × List String)
  | [], st => some st
  | i :: rest, st =>
    match mdStep inp i st with
    | none => none
    | some st' => mdRun inp rest st'

/-- `create_pdb_lines_MD` of the source: scan atoms `0 .. N-1` starting from
residue number 1 and position counter 0, returning the emitted lines. -/
def create_pdb_lines_MD (inp : MDInput) : Option (List String) :=
  (mdRun inp (List.range inp.atoms_type.length) (1, 0, [])).map (fun st => st.2.2)

/-- One iteration of the `create_pdb_lines_QM` loop at atom `i`: the state is
(residue number, position counter, lines); the residue number stays 1 and the
position counter, though incremented, is never used (names use the atom index
`i`). -/
def qmStep (trajectory_coordinates : List (Int × Int × Int)) (atoms_number : Nat → Nat)
    (i : Nat) (st : Nat × Nat × List String) : Option (Nat × Nat × List String) :=
  let residue_atom_index := st.2.1 + 1
  let c := trajectory_coordinates.getD i (0, 0, 0)
  match atomic_numbers_Map (atoms_number i) with
  | none => none
  | some elem =>
    some (st.1, residue_atom_index,
      st.2.2 ++ [format_pdb_line (i+1) (elem ++ toString i) "MOL" st.1 c.1 c.2.1 c.2.2 elem])

/-- The `create_pdb_lines_QM` loop over a list of atom indices. -/
def qmRun (trajectory_coordinates : List (Int × Int × Int)) (atoms_number : Nat → Nat) :
    List Nat → Nat × Nat × List String → Option (Nat × Nat × List String)
  | [], st => some st
  | i :: rest, st =>
    match qmStep trajectory_coordinates atoms_number i st with
    | none => none
    | some st' => qmRun trajectory_coordinates atoms_number rest st'

/-- `create_pdb_lines_QM` of the source.  It receives the name table but
never reads it. -/
def create_pdb_lines_QM (trajectory_coordinates : List (Int × Int × Int))
    (atoms_number : Nat → Nat) (nameMap : String × Int × String → Option String) :
    Option (List String) :=
  (qmRun trajectory_coordinates atoms_number
    (List.range trajectory_coordinates.length) (1, 0, [])).map (fun st => st.2.2)

/-! ### Derived predicates and helper lemmas -/

/-- The exact condition under which `update_residue_indices` bumps the
residue number: not the last atom, and (O-type followed by N-type, or the
next atom in a ligand residue), and not the GLN/ASN in-residue O-N
exception. -/
def residue_jump_fires (i : Nat) (type_string : String)
    (atoms_type atoms_residue : List Nat) (residue_name : String)
    (residue_atom_index : Nat) (residue_Map typeMap : Nat → String) : Prop :=
  i < atoms_type.length - 1 ∧
    ((type_string.front = 'O' ∧ (typeMap (atoms_type.getD (i+1) 0)).front = 'N')
      ∨ residue_Map (atoms_residue.getD (i+1) 0) = "MOL") ∧
    ¬ ((residue_name = "GLN" ∧ (residue_atom_index = 12 ∨ residue_atom_index = 14))
      ∨ (residue_name = "ASN" ∧ (residue_atom_index = 9 ∨ residue_atom_index = 11)))

instance (i : Nat) (ts : String) (atoms_type atoms_residue : List Nat)
    (residue_name : String) (idx : Nat) (rm tm : Nat → String) :
    Decidable (residue_jump_fires i ts atoms_type atoms_residue residue_name idx rm tm) := by
  unfold residue_jump_fires
  exact inferInstance

/-- The type label resolved for atom `i` in the MD scan. -/
def md_type_string (inp : MDInput) (i : Nat) : String :=
  inp.typeMap (inp.atoms_type.getD i 0)

/-- The residue name resolved for atom `i` in the MD scan. -/
def md_residue_name (inp : MDInput) (i : Nat) : String :=
  inp.residue_Map (inp.atoms_residue.getD i 0)

/-- The discontinuity rule fires after atom `i` (with the given in-residue
position counter at emission time). -/
def md_disc_fires (inp : MDInput) (i : Nat) (residue_atom_index : Nat) : Prop :=
  residue_jump_fires i (md_type_string inp i) inp.atoms_type inp.atoms_residue
    (md_residue_name inp i) residue_atom_index inp.residue_Map inp.typeMap

instance (inp : MDInput) (i idx : Nat) : Decidable (md_disc_fires inp i idx) := by
  unfold md_disc_fires
  exact inferInstance

/-- The molecule-boundary rule fires after atom `i`: the next index starts a
new molecule. -/
def md_bound_fires (inp : MDInput) (i : Nat) : Prop :=
  i + 1 ∈ inp.molecules_begin_atom_index

instance (inp : MDInput) (i : Nat) : Decidable (md_bound_fires inp i) := by
  unfold md_bound_fires
  exact inferInstance

theorem update_residue_indices_eq (residue_number i : Nat) (type_string : String)
    (atoms_type atoms_residue : List Nat) (residue_name : String)
    (residue_atom_index : Nat) (residue_Map typeMap : Nat → String) :
    update_residue_indices residue_number i type_string atoms_type atoms_residue
        residue_name residue_atom_index residue_Map typeMap =
      if residue_jump_fires i type_string atoms_type atoms_residue residue_name
          residue_atom_index residue_Map typeMap then
        (residue_number + 1, 0)
      else
        (residue_number, residue_atom_index) := by
  unfold update_residue_indices residue_jump_fires
  split_ifs <;> tauto

theorem mdStep_none (inp : MDInput) (i : Nat) (st : Nat × Nat × List String)
    (h : atomic_numbers_Map (inp.atoms_number i) = none) :
    mdStep inp i st = none := by
  simp only [mdStep]
  cases hga : get_atom_name i inp.atoms_number (st.2.1 + 1)
      (inp.residue_Map (inp.atoms_residue.getD i 0))
      (inp.typeMap (inp.atoms_type.getD i 0)) inp.nameMap with
  | none => rfl
  | some nm =>
    rw [h]

theorem mdRun_none (inp : MDInput) (l : List Nat) (i : Nat) (hi : i ∈ l)
    (hstep : ∀ st, mdStep inp i st = none) :
    ∀ st, mdRun inp l st = none := by
  induction l with
  | nil => cases hi
  | cons j rest ih =>
    intro st
    rcases List.mem_cons.mp hi with hji | hirest
    · subst hji
      simp [mdRun, hstep st]
    · unfold mdRun
      cases hj : mdStep inp j st with
      | none => rfl
      | some st' => exact ih hirest st'

/-- **C3.** The residue-index update increments the residue number (and
resets the position counter) exactly when the discontinuity condition fires:
there is a next atom, the type label starts with `'O'` and the next one with
`'N'` or the next atom's residue is `"MOL"`, and the GLN {12,14} / ASN {9,11}
exceptions do not apply; in particular GLN at 12/14 and ASN at 9/11 never
trigger the update. -/
theorem update_residue_indices_fires_iff (residue_number i : Nat)
    (type_string : String) (atoms_type atoms_residue : List Nat)
    (residue_name : String) (residue_atom_index : Nat)
    (residue_Map typeMap : Nat → String) :
    (update_residue_indices residue_number i type_string atoms_type atoms_residue
        residue_name residue_atom_index residue_Map typeMap =
      if residue_jump_fires i type_string atoms_type atoms_residue residue_name
          residue_atom_index residue_Map typeMap then
        (residue_number + 1, 0)
      else
        (residue_number, residue_atom_index)) ∧
    update_residue_indices residue_number i type_string atoms_type atoms_residue
        "GLN" 12 residue_Map typeMap = (residue_number, 12) ∧
    update_residue_indices residue_number i type_string atoms_type atoms_residue
        "GLN" 14 residue_Map typeMap = (residue_number, 14) ∧
    update_residue_indices residue_number i type_string atoms_type atoms_residue
        "ASN" 9 residue_Map typeMap = (residue_number, 9) ∧
    update_residue_indices residue_number i type_string atoms_type atoms_residue
        "ASN" 11 residue_Map typeMap = (residue_number, 11) := by
  refine ⟨update_residue_indices_eq _ _ _ _ _ _ _ _ _, ?_, ?_, ?_, ?_⟩ <;>
    · rw [update_residue_indices_eq]
      rw [if_neg]
      unfold residue_jump_fires
      simp

/-- **C5.** If any atom's atomic number is absent from the fixed element
table, the whole per-frame MD conversion fails (the Python `KeyError`
propagates): the lookup fails in every branch of the name resolution and in
the line formatting, whether the atom is a ligand, a polymer atom with a
name-table hit, or a polymer atom with a name-table miss. -/
theorem create_pdb_lines_MD_elem_missing (inp : MDInput) (i : Nat)
    (h1 : i < inp.atoms_type.length)
    (h2 : atomic_numbers_Map (inp.atoms_number i) = none) :
    create_pdb_lines_MD inp = none := by
  unfold create_pdb_lines_MD
  rw [mdRun_none inp _ i (List.mem_range.mpr h1) (fun st => mdStep_none inp i st h2)]
  rfl

/-- **C6.** For a non-ligand atom whose atomic number is in the element
table, a name-table miss is not an error: the resolver returns the
synthesized element-plus-position name; on a hit it returns the table's
value. -/
theorem get_atom_name_fallback (i : Nat) (an : Nat → Nat) (idx : Nat)
    (residue_name ts : String) (nameMap : String × Int × String → Option String)
    (e : String) (hmol : residue_name ≠ "MOL")
    (he : atomic_numbers_Map (an i) = some e) :
    (nameMap (residue_name, (idx : Int) - 1, ts) = none →
      get_atom_name i an idx residue_name ts nameMap = some (e ++ toString idx)) ∧
    (∀ s, nameMap (residue_name, (idx : Int) - 1, ts) = some s →
      get_atom_name i an idx residue_name ts nameMap = some s) := by
  constructor
  · intro hmiss
    simp [get_atom_name, hmol, hmiss, he]
  · intro s hhit
    simp [get_atom_name, hmol, hhit]

theorem get_atom_name_fallback_witness :
    get_atom_name 0 (fun _ => 8) 1 "GLY" "OH" (fun _ => none) = some ("O" ++ toString 1) ∧
    get_atom_name 0 (fun _ => 8) 1 "GLY" "OH" (fun _ => some "XY") = some "XY" :=
  ⟨(get_atom_name_fallback 0 (fun _ => 8) 1 "GLY" "OH" (fun _ => none) "O"
      (by decide) rfl).1 rfl,
    (get_atom_name_fallback 0 (fun _ => 8) 1 "GLY" "OH" (fun _ => some "XY") "O"
      (by decide) rfl).2 "XY" rfl⟩

/-- **C7.** A ligand atom (residue `"MOL"`) with its atomic number in the
element table is always named element symbol plus position counter, with no
name-table lookup: the result does not depend on the name table at all. -/
theorem get_atom_name_ligand (i : Nat) (an : Nat → Nat) (idx : Nat) (ts : String)
    (nameMap nameMap' : String × Int × String → Option String) (e : String)
    (he : atomic_numbers_Map (an i) = some e) :
    get_atom_name i an idx "MOL" ts nameMap = some (e ++ toString idx) ∧
    get_atom_name i an idx "MOL" ts nameMap = get_atom_name i an idx "MOL" ts nameMap' := by
  constructor
  · simp [get_atom_name, he]
  · simp [get_atom_name]

theorem get_atom_name_ligand_witness :
    get_atom_name 0 (fun _ => 6) 5 "MOL" "CA" (fun _ => some "ZZ") = some ("C" ++ toString 5) ∧
    get_atom_name 0 (fun _ => 6) 5 "MOL" "CA" (fun _ => some "ZZ") =
      get_atom_name 0 (fun _ => 6) 5 "MOL" "CA" (fun _ => none) :=
  get_atom_name_ligand 0 (fun _ => 6) 5 "CA" (fun _ => some "ZZ") (fun _ => none) "C" rfl

theorem md_disc_fires_iff (inp : MDInput) (i idx : Nat) :
    md_disc_fires inp i idx ↔
      residue_jump_fires i (inp.typeMap (inp.atoms_type.getD i 0)) inp.atoms_type
        inp.atoms_residue (inp.residue_Map (inp.atoms_residue.getD i 0)) idx
        inp.residue_Map inp.typeMap :=
  Iff.rfl

theorem md_bound_fires_iff (inp : MDInput) (i : Nat) :
    md_bound_fires inp i ↔ i + 1 ∈ inp.molecules_begin_atom_index :=
  Iff.rfl

theorem mdStep_some_elim (inp : MDInput) (i rn pos : Nat) (ls : List String)
    (rn' pos' : Nat) (ls' : List String)
    (h : mdStep inp i (rn, pos, ls) = some (rn', pos', ls')) :
    ∃ nm e,
      get_atom_name i inp.atoms_number (pos + 1) (md_residue_name inp i)
        (md_type_string inp i) inp.nameMap = some nm ∧
      atomic_numbers_Map (inp.atoms_number i) = some e ∧
      rn' = rn + (if md_disc_fires inp i (pos + 1) then 1 else 0)
          + (if md_bound_fires inp i then 1 else 0) ∧
      pos' = (if md_disc_fires inp i (pos + 1) ∨ md_bound_fires inp i then 0 else pos + 1) ∧
      ls' = ls ++ [format_pdb_line (i+1) nm (md_residue_name inp i) rn
            (inp.trajectory_coordinates i).1 (inp.trajectory_coordinates i).2.1
            (inp.trajectory_coordinates i).2.2 e]
          ++ (if md_bound_fires inp i then ["TER"] else []) := by
  simp only [mdStep] at h
  split at h
  · cases h
  · rename_i nm hga
    split at h
    · cases h
    · rename_i e helem
      refine ⟨nm, e, hga, helem, ?_⟩
      rw [update_residue_indices_eq] at h
      unfold insert_TERS at h
      split_ifs at h with h1 h2 h3 <;>
        simp only [Option.some_inj, Prod.mk.injEq] at h <;>
        obtain ⟨e1, e2, e3⟩ := h <;>
        subst e1 <;> subst e2 <;> subst e3 <;>
        simp only [← md_disc_fires_iff, ← md_bound_fires_iff] at * <;>
        refine ⟨?_, ?_, ?_⟩ <;> split_ifs <;>
        first | rfl | omega | tauto | simp [md_residue_name]

theorem mdRun_rn_le (inp : MDInput) (l : List Nat) :
    ∀ (rn pos : Nat) (ls : List String) (out : Nat × Nat × List String),
      mdRun inp l (rn, pos, ls) = some out → rn ≤ out.1 := by
  induction l with
  | nil =>
    intro rn pos ls out h
    simp only [mdRun, Option.some_inj] at h
    simp [← h]
  | cons j rest ih =>
    intro rn pos ls out h
    unfold mdRun at h
    cases hj : mdStep inp j (rn, pos, ls) with
    | none => rw [hj] at h; cases h
    | some st' =>
      rw [hj] at h
      obtain ⟨rn₁, pos₁, ls₁⟩ := st'
      obtain ⟨nm, e, -, -, hrn, -, -⟩ := mdStep_some_elim inp j rn pos ls rn₁ pos₁ ls₁ hj
      have h2 := ih rn₁ pos₁ ls₁ out h
      split_ifs at hrn <;> omega

/-- **C4.** Across an MD scan the residue number never decreases; each step
adds 1 for the discontinuity rule, plus 1 for the molecule-boundary rule
(2 when both fire on the same transition, in which case the `TER` line is
still emitted), and 0 otherwise; the driver starts the scan at residue
number 1, so the final residue number is at least 1. -/
theorem md_residue_number_steps :
    (∀ (inp : MDInput) (i rn pos : Nat) (ls : List String) (rn' pos' : Nat)
        (ls' : List String), mdStep inp i (rn, pos, ls) = some (rn', pos', ls') →
      rn' = rn + (if md_disc_fires inp i (pos + 1) then 1 else 0)
          + (if md_bound_fires inp i then 1 else 0) ∧
      rn ≤ rn' ∧
      (md_bound_fires inp i → ∃ pre, ls' = pre ++ ["TER"])) ∧
    (∀ (inp : MDInput) (l : List Nat) (rn pos : Nat) (ls : List String)
        (out : Nat × Nat × List String),
      mdRun inp l (rn, pos, ls) = some out → rn ≤ out.1) ∧
    (∀ (inp : MDInput) (out : Nat × Nat × List String),
      mdRun inp (List.range inp.atoms_type.length) (1, 0, []) = some out → 1 ≤ out.1) := by
  have step : ∀ (inp : MDInput) (i rn pos : Nat) (ls : List String) (rn' pos' : Nat)
      (ls' : List String), mdStep inp i (rn, pos, ls) = some (rn', pos', ls') →
      rn' = rn + (if md_disc_fires inp i (pos + 1) then 1 else 0)
          + (if md_bound_fires inp i then 1 else 0) ∧
      rn ≤ rn' ∧
      (md_bound_fires inp i → ∃ pre, ls' = pre ++ ["TER"]) := by
    intro inp i rn pos ls rn' pos' ls' h
    obtain ⟨nm, e, -, -, hrn, -, hls⟩ := mdStep_some_elim inp i rn pos ls rn' pos' ls' h
    refine ⟨hrn, by split_ifs at hrn <;> omega, ?_⟩
    intro hb
    rw [if_pos hb] at hls
    exact ⟨_, hls⟩
  exact ⟨step, fun inp l => mdRun_rn_le inp l,
    fun inp out h => mdRun_rn_le inp _ 1 0 [] out h⟩

/-- **C8.** Per MD scan step: the position counter is reset to 0 exactly when
the residue number was incremented on that transition and otherwise grows by
exactly 1; the atom's line is emitted with position counter value `pos + 1`
(so the first atom after any increment is emitted at position 1). -/
theorem md_position_counter_step (inp : MDInput) (i rn pos : Nat) (ls : List String)
    (rn' pos' : Nat) (ls' : List String)
    (h : mdStep inp i (rn, pos, ls) = some (rn', pos', ls')) :
    pos' = (if rn' ≠ rn then 0 else pos + 1) ∧
    ∃ nm e,
      get_atom_name i inp.atoms_number (pos + 1) (md_residue_name inp i)
        (md_type_string inp i) inp.nameMap = some nm ∧
      atomic_numbers_Map (inp.atoms_number i) = some e ∧
      ∃ t : Bool, ls' = ls ++ [format_pdb_line (i+1) nm (md_residue_name inp i) rn
          (inp.trajectory_coordinates i).1 (inp.trajectory_coordinates i).2.1
          (inp.trajectory_coordinates i).2.2 e] ++ (if t then ["TER"] else []) := by
  obtain ⟨nm, e, hga, helem, hrn, hpos, hls⟩ := mdStep_some_elim inp i rn pos ls rn' pos' ls' h
  constructor
  · rw [hpos, hrn]
    split_ifs <;> first | rfl | omega | tauto
  · refine ⟨nm, e, hga, helem, decide (md_bound_fires inp i), ?_⟩
    rw [hls]
    by_cases h2 : md_bound_fires inp i <;> simp [h2]

/-! ### Concrete example inputs -/

/-- The spec's end-to-end MD example: 3 atoms, type labels `OH`, `NH`, `CA`,
residues GLY, GLY, MOL, molecule boundary at index 2, atomic numbers 8, 7, 6;
the name table is empty and all coordinates are 0. -/
def mdExample3 : MDInput where
  trajectory_coordinates := fun _ => (0, 0, 0)
  atoms_type := [0, 1, 2]
  atoms_number := fun i => [8, 7, 6].getD i 0
  atoms_residue := [0, 0, 1]
  molecules_begin_atom_index := [2]
  typeMap := fun t => ["OH", "NH", "CA"].getD t ""
  residue_Map := fun r => ["GLY", "MOL"].getD r ""
  nameMap := fun _ => none

/-- A one-atom MD input whose atomic number 2 (He) is absent from the
element table. -/
def missingElemInput : MDInput where
  trajectory_coordinates := fun _ => (0, 0, 0)
  atoms_type := [0]
  atoms_number := fun _ => 2
  atoms_residue := [0]
  molecules_begin_atom_index := []
  typeMap := fun _ => "CA"
  residue_Map := fun _ => "MOL"
  nameMap := fun _ => none

theorem create_pdb_lines_MD_elem_missing_witness :
    0 < missingElemInput.atoms_type.length ∧
    atomic_numbers_Map (missingElemInput.atoms_number 0) = none ∧
    create_pdb_lines_MD missingElemInput = none :=
  ⟨by decide, rfl, create_pdb_lines_MD_elem_missing missingElemInput 0 (by decide) rfl⟩

theorem md_residue_number_steps_witness :
    mdStep mdExample3 0 (1, 0, []) =
      some (2, 0, [format_pdb_line 1 "O1" "GLY" 1 0 0 0 "O"]) ∧
    ((2 : Nat) = 1 + (if md_disc_fires mdExample3 0 (0 + 1) then 1 else 0)
        + (if md_bound_fires mdExample3 0 then 1 else 0) ∧
      (1 : Nat) ≤ 2 ∧
      (md_bound_fires mdExample3 0 →
        ∃ pre, [format_pdb_line 1 "O1" "GLY" 1 0 0 0 "O"] = pre ++ ["TER"])) :=
  ⟨rfl, md_residue_number_steps.1 mdExample3 0 1 0 [] 2 0
    [format_pdb_line 1 "O1" "GLY" 1 0 0 0 "O"] rfl⟩

theorem md_position_counter_step_witness :
    mdStep mdExample3 0 (1, 0, []) =
      some (2, 0, [format_pdb_line 1 "O1" "GLY" 1 0 0 0 "O"]) ∧
    ((0 : Nat) = (if (2 : Nat) ≠ 1 then 0 else 0 + 1) ∧
      ∃ nm e,
        get_atom_name 0 mdExample3.atoms_number (0 + 1) (md_residue_name mdExample3 0)
          (md_type_string mdExample3 0) mdExample3.nameMap = some nm ∧
        atomic_numbers_Map (mdExample3.atoms_number 0) = some e ∧
        ∃ t : Bool, [format_pdb_line 1 "O1" "GLY" 1 0 0 0 "O"] =
          [] ++ [format_pdb_line 1 nm (md_residue_name mdExample3 0) 1
              (mdExample3.trajectory_coordinates 0).1 (mdExample3.trajectory_coordinates 0).2.1
              (mdExample3.trajectory_coordinates 0).2.2 e]
            ++ (if t then ["TER"] else [])) :=
  ⟨rfl, md_position_counter_step mdExample3 0 1 0 [] 2 0
    [format_pdb_line 1 "O1" "GLY" 1 0 0 0 "O"] rfl⟩

/-- **C1 (counterexample).** On the spec's 3-atom example the conversion
emits, for atom 2, residue number 4 and atom name `C1`, not residue number 3
and atom name `C0` as claimed: on the transition out of atom 1 both the
discontinuity rule (atom 2 is in a `MOL` residue) and the boundary rule
(index 2 is a boundary) fire, so the residue number goes 2 → 4, and the
ligand name uses the 1-based position counter. -/
theorem mdExample3_refutes_claim :
    create_pdb_lines_MD mdExample3 =
      some [format_pdb_line 1 "O1" "GLY" 1 0 0 0 "O",
        format_pdb_line 2 "N1" "GLY" 2 0 0 0 "N", "TER",
        format_pdb_line 3 "C1" "MOL" 4 0 0 0 "C"] ∧
    format_pdb_line 3 "C1" "MOL" 4 0 0 0 "C" ≠ format_pdb_line 3 "C0" "MOL" 3 0 0 0 "C" :=
  ⟨rfl, by decide⟩

/-- **C1 (amended).** The MD pipeline on the 3-atom example emits: atom 0's
line with residue GLY and residue number 1; atom 1's line with residue GLY
and residue number 2; a `TER` line after atom 1; and atom 2's line with
residue MOL, residue number 4 (the discontinuity and boundary rules both fire
on the transition out of atom 1) and atom name `C1` (element symbol plus the
1-based position counter). -/
theorem mdExample3_output :
    create_pdb_lines_MD mdExample3 =
      some [format_pdb_line 1 "O1" "GLY" 1 0 0 0 "O",
        format_pdb_line 2 "N1" "GLY" 2 0 0 0 "N", "TER",
        format_pdb_line 3 "C1" "MOL" 4 0 0 0 "C"] :=
  rfl

/-! ### The QM pipeline -/

theorem spaces_length (n : Nat) : (spaces n).length = n := by
  show (List.replicate n ' ').length = n
  simp

theorem format_pdb_line_ne_TER (serial : Nat) (nm rnm : String) (rn : Nat)
    (x y z : Int) (e : String) : format_pdb_line serial nm rnm rn x y z e ≠ "TER" := by
  intro hcontra
  have h := congrArg String.length hcontra
  rw [format_pdb_line] at h
  repeat rw [String.length_append] at h
  have h4 : ("ATOM" : String).length = 4 := rfl
  have hT : ("TER" : String).length = 3 := rfl
  omega

theorem qmRun_eq (coords : List (Int × Int × Int)) (an : Nat → Nat) (e : Nat → String) :
    ∀ (n a rn k : Nat) (acc : List String),
      (∀ i, a ≤ i → i < a + n → atomic_numbers_Map (an i) = some (e i)) →
      qmRun coords an (List.range' a n) (rn, k, acc) =
        some (rn, k + n, acc ++ (List.range' a n).map (fun i =>
          format_pdb_line (i+1) (e i ++ toString i) "MOL" rn
            (coords.getD i (0,0,0)).1 (coords.getD i (0,0,0)).2.1
            (coords.getD i (0,0,0)).2.2 (e i))) := by
  intro n
  induction n with
  | zero =>
    intro a rn k acc _
    simp [qmRun]
  | succ m ih =>
    intro a rn k acc h
    rw [List.range'_succ]
    show qmRun coords an (a :: List.range' (a+1) m) (rn, k, acc) = _
    unfold qmRun
    simp only [qmStep, h a (le_refl a) (by omega)]
    rw [ih (a+1) rn (k+1) _ (fun i h1 h2 => h i (by omega) (by omega))]
    have hk : k + 1 + m = k + (m + 1) := by omega
    rw [hk]
    simp [List.append_assoc]

/-- **C9.** The QM pipeline, when every atomic number is in the element
table, outputs exactly one ATOM line per atom, with residue name `"MOL"` and
residue number 1 on every line and atom name element-symbol-plus-atom-index;
it never emits `TER` and never consults the name table. -/
theorem create_pdb_lines_QM_spec (coords : List (Int × Int × Int)) (an : Nat → Nat)
    (nameMap : String × Int × String → Option String) (e : Nat → String)
    (he : ∀ i, i < coords.length → atomic_numbers_Map (an i) = some (e i)) :
    create_pdb_lines_QM coords an nameMap =
      some ((List.range coords.length).map (fun i =>
        format_pdb_line (i+1) (e i ++ toString i) "MOL" 1
          (coords.getD i (0,0,0)).1 (coords.getD i (0,0,0)).2.1
          (coords.getD i (0,0,0)).2.2 (e i))) ∧
    (∀ ls, create_pdb_lines_QM coords an nameMap = some ls → "TER" ∉ ls) ∧
    (∀ nameMap', create_pdb_lines_QM coords an nameMap' =
      create_pdb_lines_QM coords an nameMap) := by
  have h1 : create_pdb_lines_QM coords an nameMap =
      some ((List.range coords.length).map (fun i =>
        format_pdb_line (i+1) (e i ++ toString i) "MOL" 1
          (coords.getD i (0,0,0)).1 (coords.getD i (0,0,0)).2.1
          (coords.getD i (0,0,0)).2.2 (e i))) := by
    unfold create_pdb_lines_QM
    rw [List.range_eq_range']
    rw [qmRun_eq coords an e coords.length 0 1 0 []
      (fun i hle hlt => he i (by omega))]
    simp
  refine ⟨h1, ?_, fun _ => rfl⟩
  intro ls hls hmem
  rw [h1, Option.some_inj] at hls
  subst hls
  obtain ⟨i, -, hi⟩ := List.mem_map.mp hmem
  exact format_pdb_line_ne_TER _ _ _ _ _ _ _ _ hi

theorem create_pdb_lines_QM_spec_witness :
    create_pdb_lines_QM [((0:Int), (0:Int), (0:Int))] (fun _ => 6) (fun _ => none) =
      some [format_pdb_line 1 "C0" "MOL" 1 0 0 0 "C"] ∧
    (∀ ls, create_pdb_lines_QM [((0:Int), (0:Int), (0:Int))] (fun _ => 6) (fun _ => none) =
      some ls → "TER" ∉ ls) :=
  ⟨(create_pdb_lines_QM_spec [((0:Int), (0:Int), (0:Int))] (fun _ => 6) (fun _ => none)
      (fun _ => "C") (fun _ _ => rfl)).1,
    (create_pdb_lines_QM_spec [((0:Int), (0:Int), (0:Int))] (fun _ => 6) (fun _ => none)
      (fun _ => "C") (fun _ _ => rfl)).2.1⟩

/-! ### Serial numbers and TER placement in the MD output -/

/-- The data of one resolved ATOM record, everything except the serial. -/
structure AtomFields where
  atom_name : String
  residue_name : String
  residue_number : Nat
  coords : Int × Int × Int
  elem : String

/-- Render an ATOM record from a serial and its resolved fields. -/
def lineOf (serial : Nat) (f : AtomFields) : String :=
  format_pdb_line serial f.atom_name f.residue_name f.residue_number
    f.coords.1 f.coords.2.1 f.coords.2.2 f.elem

theorem lineOf_ne_TER (serial : Nat) (f : AtomFields) : lineOf serial f ≠ "TER" :=
  format_pdb_line_ne_TER _ _ _ _ _ _ _ _

theorem mdRun_shape (inp : MDInput) :
    ∀ (n a rn pos : Nat) (acc : List String) (out : Nat × Nat × List String),
      mdRun inp (List.range' a n) (rn, pos, acc) = some out →
      ∃ (g : Nat → AtomFields) (suffix : List String),
        out.2.2 = acc ++ suffix ∧
        suffix.filter (fun s => s != "TER") =
          (List.range' a n).map (fun i => lineOf (i+1) (g i)) ∧
        (∀ s ∈ suffix, s = "TER" ∨ ∃ i, a ≤ i ∧ i < a + n ∧ s = lineOf (i+1) (g i)) ∧
        (0 < n → ∃ rest, suffix = lineOf (a+1) (g a) :: rest) := by
  intro n
  induction n with
  | zero =>
    intro a rn pos acc out h
    simp only [List.range', mdRun, Option.some_inj] at h
    refine ⟨fun _ => ⟨"", "", 0, (0,0,0), ""⟩, [], ?_, ?_, ?_, ?_⟩ <;> simp [← h]
  | succ m ih =>
    intro a rn pos acc out h
    rw [List.range'_succ] at h
    unfold mdRun at h
    cases hstep : mdStep inp a (rn, pos, acc) with
    | none => rw [hstep] at h; cases h
    | some st' =>
      rw [hstep] at h
      obtain ⟨rn₁, pos₁, ls₁⟩ := st'
      obtain ⟨nm, e, hga, helem, hrn, hpos, hls⟩ :=
        mdStep_some_elim inp a rn pos acc rn₁ pos₁ ls₁ hstep
      obtain ⟨g', suffix', hout, hfilter, hmem, hhead⟩ :=
        ih (a+1) rn₁ pos₁ ls₁ out h
      refine ⟨fun i => if i = a then
          ⟨nm, md_residue_name inp a, rn, inp.trajectory_coordinates a, e⟩ else g' i,
        [lineOf (a+1) ⟨nm, md_residue_name inp a, rn, inp.trajectory_coordinates a, e⟩]
          ++ (if md_bound_fires inp a then ["TER"] else []) ++ suffix',
        ?_, ?_, ?_, ?_⟩
      · rw [hout, hls]
        simp [lineOf, List.append_assoc]
      · rw [List.filter_append, List.filter_append, hfilter, List.range'_succ, List.map_cons]
        have hT : (if md_bound_fires inp a then ["TER"] else []).filter
            (fun s => s != "TER") = [] := by
          split_ifs <;> simp
        have hbne : (lineOf (a+1)
            ⟨nm, md_residue_name inp a, rn, inp.trajectory_coordinates a, e⟩ != "TER") =
            true :=
          bne_iff_ne.mpr (lineOf_ne_TER _ _)
        have hL : ([lineOf (a+1)
            ⟨nm, md_residue_name inp a, rn, inp.trajectory_coordinates a, e⟩] :
            List String).filter (fun s => s != "TER") =
            [lineOf (a+1) ⟨nm, md_residue_name inp a, rn, inp.trajectory_coordinates a, e⟩] := by
          simp only [List.filter, hbne]
        rw [hT, hL]
        beta_reduce
        have hmap : (List.range' (a+1) m).map (fun i => lineOf (i+1)
            (if i = a then
              ⟨nm, md_residue_name inp a, rn, inp.trajectory_coordinates a, e⟩ else g' i)) =
            (List.range' (a+1) m).map (fun i => lineOf (i+1) (g' i)) := by
          refine List.map_congr_left ?_
          intro i hi
          have h1 : a + 1 ≤ i := (List.mem_range'_1.mp hi).1
          rw [if_neg (by omega)]
        rw [hmap]
        have hfa : (if a = a then
            (⟨nm, md_residue_name inp a, rn, inp.trajectory_coordinates a, e⟩ : AtomFields)
            else g' a) =
            ⟨nm, md_residue_name inp a, rn, inp.trajectory_coordinates a, e⟩ :=
          if_pos rfl
        rw [hfa]
        simp
      · intro s hs
        rcases List.mem_append.mp hs with hs1 | hs2
        · rcases List.mem_append.mp hs1 with hl | ht
          · have hsl : s = lineOf (a+1)
                ⟨nm, md_residue_name inp a, rn, inp.trajectory_coordinates a, e⟩ :=
              List.mem_singleton.mp hl
            refine Or.inr ⟨a, le_refl a, by omega, ?_⟩
            beta_reduce
            rw [if_pos rfl]
            exact hsl
          · by_cases hb : md_bound_fires inp a
            · rw [if_pos hb] at ht
              exact Or.inl (List.mem_singleton.mp ht)
            · rw [if_neg hb] at ht
              exact absurd ht (List.not_mem_nil s)
        · rcases hmem s hs2 with h' | ⟨i, h1, h2, h3⟩
          · exact Or.inl h'
          · refine Or.inr ⟨i, by omega, by omega, ?_⟩
            beta_reduce
            rw [if_neg (show i ≠ a by omega)]
            exact h3
      · intro _
        refine ⟨(if md_bound_fires inp a then ["TER"] else []) ++ suffix', ?_⟩
        have hfa : (if a = a then
            (⟨nm, md_residue_name inp a, rn, inp.trajectory_coordinates a, e⟩ : AtomFields)
            else g' a) =
            ⟨nm, md_residue_name inp a, rn, inp.trajectory_coordinates a, e⟩ :=
          if_pos rfl
        beta_reduce
        rw [hfa]
        simp

/-- **C10.** In every successful MD conversion: the `k`-th ATOM line
(counting ATOM lines only, 0-based `k`) carries serial `k + 1`, so the
serials run consecutively `1 .. N` and are unaffected by interleaved `TER`
insertions; every emitted line is either the bare string `"TER"` or such an
ATOM record; and the first emitted line is atom 0's ATOM line (never a
`TER`), even if atom index 0 is in the boundary set. -/
theorem create_pdb_lines_MD_serials (inp : MDInput) (ls : List String)
    (h : create_pdb_lines_MD inp = some ls) :
    ∃ g : Nat → AtomFields,
      ls.filter (fun s => s != "TER") =
        (List.range inp.atoms_type.length).map (fun i => lineOf (i+1) (g i)) ∧
      (∀ s ∈ ls, s = "TER" ∨ ∃ i, i < inp.atoms_type.length ∧ s = lineOf (i+1) (g i)) ∧
      (0 < inp.atoms_type.length → ∃ rest, ls = lineOf 1 (g 0) :: rest) := by
  unfold create_pdb_lines_MD at h
  cases hrun : mdRun inp (List.range inp.atoms_type.length) (1, 0, []) with
  | none => rw [hrun] at h; cases h
  | some out =>
    rw [hrun, Option.map_some'] at h
    obtain rfl := Option.some_inj.mp h
    rw [List.range_eq_range'] at hrun
    obtain ⟨g, suffix, hout, hfilter, hmem, hhead⟩ :=
      mdRun_shape inp inp.atoms_type.length 0 1 0 [] out hrun
    rw [List.nil_append] at hout
    subst hout
    refine ⟨g, ?_, ?_, ?_⟩
    · rw [hfilter, List.range_eq_range']
    · intro s hs
      rcases hmem s hs with h' | ⟨i, -, h2, h3⟩
      · exact Or.inl h'
      · exact Or.inr ⟨i, by omega, h3⟩
    · intro hn
      exact hhead hn

/-- A one-atom MD input with atom index 0 in the molecule-boundary set. -/
def boundaryZeroInput : MDInput where
  trajectory_coordinates := fun _ => (0, 0, 0)
  atoms_type := [0]
  atoms_number := fun _ => 6
  atoms_residue := [0]
  molecules_begin_atom_index := [0]
  typeMap := fun _ => "CA"
  residue_Map := fun _ => "MOL"
  nameMap := fun _ => none

theorem create_pdb_lines_MD_serials_witness :
    create_pdb_lines_MD boundaryZeroInput =
      some [format_pdb_line 1 "C1" "MOL" 1 0 0 0 "C"] ∧
    ∃ g : Nat → AtomFields,
      ([format_pdb_line 1 "C1" "MOL" 1 0 0 0 "C"] : List String).filter
          (fun s => s != "TER") =
        (List.range boundaryZeroInput.atoms_type.length).map (fun i => lineOf (i+1) (g i)) ∧
      (∀ s ∈ ([format_pdb_line 1 "C1" "MOL" 1 0 0 0 "C"] : List String),
        s = "TER" ∨ ∃ i, i < boundaryZeroInput.atoms_type.length ∧ s = lineOf (i+1) (g i)) ∧
      (0 < boundaryZeroInput.atoms_type.length →
        ∃ rest, [format_pdb_line 1 "C1" "MOL" 1 0 0 0 "C"] = lineOf 1 (g 0) :: rest) :=
  ⟨rfl, create_pdb_lines_MD_serials boundaryZeroInput
    [format_pdb_line 1 "C1" "MOL" 1 0 0 0 "C"] rfl⟩

/-! ### The fixed-width line layout -/

theorem padL_length (s : String) (w : Nat) (h : s.length ≤ w) : (padL s w).length = w := by
  rw [padL, String.length_append, spaces_length]
  omega

theorem padR_length (s : String) (w : Nat) (h : s.length ≤ w) : (padR s w).length = w := by
  rw [padR, String.length_append, spaces_length]
  omega

theorem chunk_at {α : Type} (l pre mid post : List α) (a w : Nat)
    (hsplit : l = pre ++ (mid ++ post)) (ha : pre.length = a) (hw : mid.length = w) :
    (l.drop a).take w = mid := by
  subst hsplit
  subst ha
  subst hw
  rw [List.drop_left, List.take_left]

theorem chunk_last {α : Type} (l pre mid : List α) (a : Nat)
    (hsplit : l = pre ++ mid) (ha : pre.length = a) : l.drop a = mid := by
  subst hsplit
  subst ha
  rw [List.drop_left]

/-- **C2 (counterexample).** The format pads to minimum widths and never
truncates: a 5-character atom name (`Cl100`, the ligand name of the 100th
atom of a chlorine-containing ligand) overflows the 4-wide name field and
lengthens the line to 83 bytes, where a short name gives 82. -/
theorem format_pdb_line_overflow :
    (format_pdb_line 1 "Cl100" "MOL" 1 0 0 0 "Cl").length ≠
      (format_pdb_line 1 "C1" "MOL" 1 0 0 0 "C").length ∧
    (format_pdb_line 1 "Cl100" "MOL" 1 0 0 0 "Cl").length = 83 ∧
    (format_pdb_line 1 "C1" "MOL" 1 0 0 0 "C").length = 82 := by
  refine ⟨?_, rfl, rfl⟩
  decide

/-- **C2 (amended).** Whenever every rendered field fits its minimum width
(atom and residue name at most 4 characters, serial at most 7, residue
number at most 5, each coordinate rendering at most 8, element symbol at
most 5), the emitted ATOM line is exactly 82 bytes with byte-for-byte column
boundaries: `ATOM`, serial right-justified in width 7, two spaces, atom name
left-justified in width 4, residue name left-justified in width 4, residue
number right-justified in width 5, four spaces, three coordinates each width
8 with 3 decimals, the literal `"  1.00  0.00"` plus spacing, and the
element symbol left-justified in width 5.  Names longer than a field are NOT
truncated: they widen the field (see the counterexample), so the fixed
layout holds only under these hypotheses. -/
theorem format_pdb_line_layout (serial : Nat) (atom_name residue_name : String)
    (residue_number : Nat) (x y z : Int) (elem : String)
    (h1 : (toString serial).length ≤ 7) (h2 : atom_name.length ≤ 4)
    (h3 : residue_name.length ≤ 4) (h4 : (toString residue_number).length ≤ 5)
    (h5 : (fmtFixed3 x).length ≤ 8) (h6 : (fmtFixed3 y).length ≤ 8)
    (h7 : (fmtFixed3 z).length ≤ 8) (h8 : elem.length ≤ 5) :
    (format_pdb_line serial atom_name residue_name residue_number x y z elem).length = 82 ∧
    (format_pdb_line serial atom_name residue_name residue_number x y z elem).data.take 4 =
      ("ATOM" : String).data ∧
    ((format_pdb_line serial atom_name residue_name residue_number x y z elem).data.drop 4).take 7 =
      (padL (toString serial) 7).data ∧
    ((format_pdb_line serial atom_name residue_name residue_number x y z elem).data.drop 11).take 2 =
      ("  " : String).data ∧
    ((format_pdb_line serial atom_name residue_name residue_number x y z elem).data.drop 13).take 4 =
      (padR atom_name 4).data ∧
    ((format_pdb_line serial atom_name residue_name residue_number x y z elem).data.drop 17).take 4 =
      (padR residue_name 4).data ∧
    ((format_pdb_line serial atom_name residue_name residue_number x y z elem).data.drop 21).take 5 =
      (padL (toString residue_number) 5).data ∧
    ((format_pdb_line serial atom_name residue_name residue_number x y z elem).data.drop 26).take 4 =
      ("    " : String).data ∧
    ((format_pdb_line serial atom_name residue_name residue_number x y z elem).data.drop 30).take 8 =
      (padL (fmtFixed3 x) 8).data ∧
    ((format_pdb_line serial atom_name residue_name residue_number x y z elem).data.drop 38).take 8 =
      (padL (fmtFixed3 y) 8).data ∧
    ((format_pdb_line serial atom_name residue_name residue_number x y z elem).data.drop 46).take 8 =
      (padL (fmtFixed3 z) 8).data ∧
    ((format_pdb_line serial atom_name residue_name residue_number x y z elem).data.drop 54).take 23 =
      ("  1.00  0.00           " : String).data ∧
    (format_pdb_line serial atom_name residue_name residue_number x y z elem).data.drop 77 =
      (padR elem 5).data := by
  have hA : ("ATOM" : String).data.length = 4 := rfl
  have hB : (padL (toString serial) 7).data.length = 7 := padL_length _ _ h1
  have hC : ("  " : String).data.length = 2 := rfl
  have hD : (padR atom_name 4).data.length = 4 := padR_length _ _ h2
  have hE : (padR residue_name 4).data.length = 4 := padR_length _ _ h3
  have hF : (padL (toString residue_number) 5).data.length = 5 := padL_length _ _ h4
  have hG : ("    " : String).data.length = 4 := rfl
  have hH : (padL (fmtFixed3 x) 8).data.length = 8 := padL_length _ _ h5
  have hI : (padL (fmtFixed3 y) 8).data.length = 8 := padL_length _ _ h6
  have hJ : (padL (fmtFixed3 z) 8).data.length = 8 := padL_length _ _ h7
  have hK : ("  1.00  0.00           " : String).data.length = 23 := rfl
  have hM : (padR elem 5).data.length = 5 := padR_length _ _ h8
  have hsplit : (format_pdb_line serial atom_name residue_name residue_number x y z elem).data =
      ("ATOM" : String).data ++ ((padL (toString serial) 7).data ++ (("  " : String).data ++
        ((padR atom_name 4).data ++ ((padR residue_name 4).data ++
        ((padL (toString residue_number) 5).data ++ (("    " : String).data ++
        ((padL (fmtFixed3 x) 8).data ++ ((padL (fmtFixed3 y) 8).data ++
        ((padL (fmtFixed3 z) 8).data ++ (("  1.00  0.00           " : String).data ++
        (padR elem 5).data)))))))))) := by
    simp [format_pdb_line, String.data_append, List.append_assoc]
  have S0 : (format_pdb_line serial atom_name residue_name residue_number x y z elem).data =
      ([] : List Char) ++
      (("ATOM" : String).data ++
      ((padL (toString serial) 7).data ++ (("  " : String).data ++ ((padR atom_name 4).data ++ ((padR residue_name 4).data ++ ((padL (toString residue_number) 5).data ++ (("    " : String).data ++ ((padL (fmtFixed3 x) 8).data ++ ((padL (fmtFixed3 y) 8).data ++ ((padL (fmtFixed3 z) 8).data ++ (("  1.00  0.00           " : String).data ++ (padR elem 5).data))))))))))) := by
    rw [hsplit]
    try simp [List.append_assoc]
  have S1 : (format_pdb_line serial atom_name residue_name residue_number x y z elem).data =
      ("ATOM" : String).data ++
      ((padL (toString serial) 7).data ++
      (("  " : String).data ++ ((padR atom_name 4).data ++ ((padR residue_name 4).data ++ ((padL (toString residue_number) 5).data ++ (("    " : String).data ++ ((padL (fmtFixed3 x) 8).data ++ ((padL (fmtFixed3 y) 8).data ++ ((padL (fmtFixed3 z) 8).data ++ (("  1.00  0.00           " : String).data ++ (padR elem 5).data)))))))))) := by
    rw [hsplit]
    try simp [List.append_assoc]
  have S2 : (format_pdb_line serial atom_name residue_name residue_number x y z elem).data =
      (("ATOM" : String).data ++ (padL (toString serial) 7).data) ++
      (("  " : String).data ++
      ((padR atom_name 4).data ++ ((padR residue_name 4).data ++ ((padL (toString residue_number) 5).data ++ (("    " : String).data ++ ((padL (fmtFixed3 x) 8).data ++ ((padL (fmtFixed3 y) 8).data ++ ((padL (fmtFixed3 z) 8).data ++ (("  1.00  0.00           " : String).data ++ (padR elem 5).data))))))))) := by
    rw [hsplit]
    try simp [List.append_assoc]
  have S3 : (format_pdb_line serial atom_name residue_name residue_number x y z elem).data =
      (("ATOM" : String).data ++ ((padL (toString serial) 7).data ++ ("  " : String).data)) ++
      ((padR atom_name 4).data ++
      ((padR residue_name 4).data ++ ((padL (toString residue_number) 5).data ++ (("    " : String).data ++ ((padL (fmtFixed3 x) 8).data ++ ((padL (fmtFixed3 y) 8).data ++ ((padL (fmtFixed3 z) 8).data ++ (("  1.00  0.00           " : String).data ++ (padR elem 5).data)))))))) := by
    rw [hsplit]
    try simp [List.append_assoc]
  have S4 : (format_pdb_line serial atom_name residue_name residue_number x y z elem).data =
      (("ATOM" : String).data ++ ((padL (toString serial) 7).data ++ (("  " : String).data ++ (padR atom_name 4).data))) ++
      ((padR residue_name 4).data ++
      ((padL (toString residue_number) 5).data ++ (("    " : String).data ++ ((padL (fmtFixed3 x) 8).data ++ ((padL (fmtFixed3 y) 8).data ++ ((padL (fmtFixed3 z) 8).data ++ (("  1.00  0.00           " : String).data ++ (padR elem 5).data))))))) := by
    rw [hsplit]
    try simp [List.append_assoc]
  have S5 : (format_pdb_line serial atom_name residue_name residue_number x y z elem).data =
      (("ATOM" : String).data ++ ((padL (toString serial) 7).data ++ (("  " : String).data ++ ((padR atom_name 4).data ++ (padR residue_name 4).data)))) ++
      ((padL (toString residue_number) 5).data ++
      (("    " : String).data ++ ((padL (fmtFixed3 x) 8).data ++ ((padL (fmtFixed3 y) 8).data ++ ((padL (fmtFixed3 z) 8).data ++ (("  1.00  0.00           " : String).data ++ (padR elem 5).data)))))) := by
    rw [hsplit]
    try simp [List.append_assoc]
  have S6 : (format_pdb_line serial atom_name residue_name residue_number x y z elem).data =
      (("ATOM" : String).data ++ ((padL (toString serial) 7).data ++ (("  " : String).data ++ ((padR atom_name 4).data ++ ((padR residue_name 4).data ++ (padL (toString residue_number) 5).data))))) ++
      (("    " : String).data ++
      ((padL (fmtFixed3 x) 8).data ++ ((padL (fmtFixed3 y) 8).data ++ ((padL (fmtFixed3 z) 8).data ++ (("  1.00  0.00           " : String).data ++ (padR elem 5).data))))) := by
    rw [hsplit]
    try simp [List.append_assoc]
  have S7 : (format_pdb_line serial atom_name residue_name residue_number x y z elem).data =
      (("ATOM" : String).data ++ ((padL (toString serial) 7).data ++ (("  " : String).data ++ ((padR atom_name 4).data ++ ((padR residue_name 4).data ++ ((padL (toString residue_number) 5).data ++ ("    " : String).data)))))) ++
      ((padL (fmtFixed3 x) 8).data ++
      ((padL (fmtFixed3 y) 8).data ++ ((padL (fmtFixed3 z) 8).data ++ (("  1.00  0.00           " : String).data ++ (padR elem 5).data)))) := by
    rw [hsplit]
    try simp [List.append_assoc]
  have S8 : (format_pdb_line serial atom_name residue_name residue_number x y z elem).data =
      (("ATOM" : String).data ++ ((padL (toString serial) 7).data ++ (("  " : String).data ++ ((padR atom_name 4).data ++ ((padR residue_name 4).data ++ ((padL (toString residue_number) 5).data ++ (("    " : String).data ++ (padL (fmtFixed3 x) 8).data))))))) ++
      ((padL (fmtFixed3 y) 8).data ++
      ((padL (fmtFixed3 z) 8).data ++ (("  1.00  0.00           " : String).data ++ (padR elem 5).data))) := by
    rw [hsplit]
    try simp [List.append_assoc]
  have S9 : (format_pdb_line serial atom_name residue_name residue_number x y z elem).data =
      (("ATOM" : String).data ++ ((padL (toString serial) 7).data ++ (("  " : String).data ++ ((padR atom_name 4).data ++ ((padR residue_name 4).data ++ ((padL (toString residue_number) 5).data ++ (("    " : String).data ++ ((padL (fmtFixed3 x) 8).data ++ (padL (fmtFixed3 y) 8).data)))))))) ++
      ((padL (fmtFixed3 z) 8).data ++
      (("  1.00  0.00           " : String).data ++ (padR elem 5).data)) := by
    rw [hsplit]
    try simp [List.append_assoc]
  have S10 : (format_pdb_line serial atom_name residue_name residue_number x y z elem).data =
      (("ATOM" : String).data ++ ((padL (toString serial) 7).data ++ (("  " : String).data ++ ((padR atom_name 4).data ++ ((padR residue_name 4).data ++ ((padL (toString residue_number) 5).data ++ (("    " : String).data ++ ((padL (fmtFixed3 x) 8).data ++ ((padL (fmtFixed3 y) 8).data ++ (padL (fmtFixed3 z) 8).data))))))))) ++
      (("  1.00  0.00           " : String).data ++
      (padR elem 5).data) := by
    rw [hsplit]
    try simp [List.append_assoc]
  have S11 : (format_pdb_line serial atom_name residue_name residue_number x y z elem).data =
      (("ATOM" : String).data ++ ((padL (toString serial) 7).data ++ (("  " : String).data ++ ((padR atom_name 4).data ++ ((padR residue_name 4).data ++ ((padL (toString residue_number) 5).data ++ (("    " : String).data ++ ((padL (fmtFixed3 x) 8).data ++ ((padL (fmtFixed3 y) 8).data ++ ((padL (fmtFixed3 z) 8).data ++ ("  1.00  0.00           " : String).data)))))))))) ++
      (padR elem 5).data := by
    rw [hsplit]
    try simp [List.append_assoc]
  refine ⟨?_, ?_, ?_, ?_, ?_, ?_, ?_, ?_, ?_, ?_, ?_, ?_, ?_⟩
  · show (format_pdb_line serial atom_name residue_name residue_number x y z elem).data.length = 82
    rw [hsplit]
    simp only [List.length_append, hA, hB, hC, hD, hE, hF, hG, hH, hI, hJ, hK, hM]
  · exact chunk_at _ _ _ _ 0 4 S0 rfl hA
  · exact chunk_at _ _ _ _ 4 7 S1 (by simp only [List.length_append, hA]) hB
  · exact chunk_at _ _ _ _ 11 2 S2 (by simp only [List.length_append, hA, hB]) hC
  · exact chunk_at _ _ _ _ 13 4 S3 (by simp only [List.length_append, hA, hB, hC]) hD
  · exact chunk_at _ _ _ _ 17 4 S4 (by simp only [List.length_append, hA, hB, hC, hD]) hE
  · exact chunk_at _ _ _ _ 21 5 S5 (by simp only [List.length_append, hA, hB, hC, hD, hE]) hF
  · exact chunk_at _ _ _ _ 26 4 S6 (by simp only [List.length_append, hA, hB, hC, hD, hE, hF]) hG
  · exact chunk_at _ _ _ _ 30 8 S7 (by simp only [List.length_append, hA, hB, hC, hD, hE, hF, hG]) hH
  · exact chunk_at _ _ _ _ 38 8 S8 (by simp only [List.length_append, hA, hB, hC, hD, hE, hF, hG, hH]) hI
  · exact chunk_at _ _ _ _ 46 8 S9 (by simp only [List.length_append, hA, hB, hC, hD, hE, hF, hG, hH, hI]) hJ
  · exact chunk_at _ _ _ _ 54 23 S10 (by simp only [List.length_append, hA, hB, hC, hD, hE, hF, hG, hH, hI, hJ]) hK
  · exact chunk_last _ _ _ 77 S11 (by simp only [List.length_append, hA, hB, hC, hD, hE, hF, hG, hH, hI, hJ, hK])

theorem format_pdb_line_layout_witness :
    ((toString (1 : Nat)).length ≤ 7 ∧ ("O1" : String).length ≤ 4 ∧
      ("GLY" : String).length ≤ 4 ∧ (toString (1 : Nat)).length ≤ 5 ∧
      (fmtFixed3 0).length ≤ 8 ∧ ("O" : String).length ≤ 5) ∧
    (format_pdb_line 1 "O1" "GLY" 1 0 0 0 "O").length = 82 ∧
    ((format_pdb_line 1 "O1" "GLY" 1 0 0 0 "O").data.drop 13).take 4 = (padR "O1" 4).data :=
  ⟨⟨by decide, by decide, by decide, by decide, by decide, by decide⟩,
    (format_pdb_line_layout 1 "O1" "GLY" 1 0 0 0 "O" (by decide) (by decide) (by decide)
      (by decide) (by decide) (by decide) (by decide) (by decide)).1,
    (format_pdb_line_layout 1 "O1" "GLY" 1 0 0 0 "O" (by decide) (by decide) (by decide)
      (by decide) (by decide) (by decide) (by decide) (by decide)).2.2.2.2.1⟩

end H5ToPdb
